import Mathlib

/-!
Shallow embedding of the tibiaclone multiplayer server (src/unnamed/part_004)
and the single-player monster movement it mirrors (src/unnamed/part_000).

Modelling conventions:
* JS numbers used as grid coordinates / health are embedded as `Int`
  (all arithmetic on them in the source is integer arithmetic).
* `Math.floor(Math.random() * k)` draws are embedded as `r % k` for an
  arbitrary natural `r` supplied by the environment, which captures exactly
  the range `0 .. k-1` of the source expression.
* `Math.random() < 0.3` is an arbitrary boolean supplied by the environment.
* Euclidean distance comparisons in the source (`Math.sqrt` of an integer
  sum of squares) are embedded via squared distances: `sqrt a < sqrt b`
  iff `a < b` and `sqrt a <= 1.5` iff `a <= 2` for naturals `a`, `b`.
* `gameState.players` is a JS `Map` keyed by the unique player id; it is
  embedded as a list in insertion order, updates go through the key.
* Timers (`setTimeout(..., 5000)`) are embedded as a list of scheduled
  respawn delays in the handler effects.
-/

namespace Tibia

/-- A map tile; only the `walkable` flag is read by the server logic
(part_004 lines 33-39, the emoji is presentation only). -/
structure Tile where
  walkable : Bool
deriving DecidableEq

/-- The field `gameState.map`: row-major grid, `map[y][x]` (part_004 line 18). -/
abbrev GameMap := List (List Tile)

/-- The constant `CONFIG.MAP_WIDTH` (part_004 line 25). -/
def MAP_WIDTH : Nat := 20

/-- The constant `CONFIG.MAP_HEIGHT` (part_004 line 26). -/
def MAP_HEIGHT : Nat := 15

/-- A player record (part_004 lines 138-146). -/
structure Player where
  id : Nat
  x : Int
  y : Int
  health : Int
  maxHealth : Int
  name : String
deriving DecidableEq

/-- A monster record (part_004 lines 87-95). -/
structure Monster where
  id : Nat
  x : Int
  y : Int
  health : Int
  maxHealth : Int
  lastMove : Int
deriving DecidableEq

/-- A server-side fireball record (part_004 lines 214-222). -/
structure Fireball where
  id : Nat
  playerId : Nat
  startX : Int
  startY : Int
  targetX : Int
  targetY : Int
  timestamp : Int
deriving DecidableEq

/-- The record `gameState` (part_004 lines 14-20). -/
structure GameState where
  players : List Player
  monsters : List Monster
  fireballs : List Fireball
  map : GameMap
  nextPlayerId : Nat
deriving DecidableEq

/-- Client-to-server messages (part_004 lines 197-303). -/
inductive ClientMsg where
  | move (x y : Int)
  | fireball (targetX targetY : Int)
  | attack (monsterId : Nat)
  | fireballHit (monsterId : Nat)
deriving DecidableEq

/-- Server-to-client messages (part_004, the `broadcast`/`sendToClient` payloads). -/
inductive ServerMsg where
  | initMsg (playerId : Nat) (map : GameMap) (players : List Player) (monsters : List Monster)
  | playerJoined (player : Player)
  | playerLeft (playerId : Nat)
  | playerMoved (playerId : Nat) (x y : Int)
  | playerDamaged (playerId : Nat) (health damage : Int)
  | playerDied (playerId : Nat)
  | fireballCast (fb : Fireball)
  | monsterMoved (monsterId : Nat) (x y : Int)
  | monsterDamaged (monsterId : Nat) (health damage : Int)
  | monsterDied (monsterId : Nat)
  | monsterSpawned (monster : Monster)
deriving DecidableEq

/-- One call of `broadcast(message, excludeClient)` (part_004 lines 115-121):
the message together with the excluded session, if any (sessions are
identified by their bound player id, which is unique per connection). -/
structure BroadcastCall where
  msg : ServerMsg
  exclude : Option Nat
deriving DecidableEq

/-- Observable effects of one handler run: broadcast calls issued, and the
delays of `setTimeout` respawn callbacks scheduled. -/
structure Effects where
  broadcasts : List BroadcastCall
  respawnDelays : List Int
deriving DecidableEq

def noEffects : Effects := { broadcasts := [], respawnDelays := [] }

/-- Nondeterministic inputs consumed by `handleClientMessage`:
`Date.now() + Math.random()` ids, `Date.now()` timestamps and the melee
damage roll `Math.floor(Math.random() * 5)`. -/
structure Env where
  freshId : Nat
  now : Int
  meleeRoll : Nat
deriving DecidableEq

/-- The lookup `gameState.map[y][x]`, returning none when out of range. -/
def tileAt (m : GameMap) (x y : Int) : Option Tile :=
  (m.get? y.toNat).bind (fun row => row.get? x.toNat)

/-- The function `isValidMove(x, y)` (part_004 lines 307-312): bounds check, then the
tile's walkable flag. -/
def isValidMove (m : GameMap) (x y : Int) : Bool :=
  if x < 0 || (MAP_WIDTH : Int) ≤ x || y < 0 || (MAP_HEIGHT : Int) ≤ y then false
  else ((tileAt m x y).map Tile.walkable).getD false

/-- The lookup `gameState.players.get(playerId)` on the insertion-order list. -/
def findPlayer (ps : List Player) (pid : Nat) : Option Player :=
  ps.find? (fun p => p.id == pid)

/-- The lookup `gameState.monsters.find(m => m.id === monsterId)` (first match). -/
def findMonster (ms : List Monster) (mid : Nat) : Option Monster :=
  ms.find? (fun m => m.id == mid)

/-- In-place mutation `player.x = x; player.y = y` of the `Map` entry. -/
def setPlayerPos (ps : List Player) (pid : Nat) (x y : Int) : List Player :=
  ps.map (fun p => if p.id == pid then { p with x := x, y := y } else p)

/-- In-place mutation `player.health = h` of the `Map` entry. -/
def setPlayerHealth (ps : List Player) (pid : Nat) (h : Int) : List Player :=
  ps.map (fun p => if p.id == pid then { p with health := h } else p)

/-- In-place mutation of the first monster found by `Array.prototype.find`. -/
def setMonsterHealth : List Monster → Nat → Int → List Monster
  | [], _, _ => []
  | m :: rest, mid, h =>
    if m.id == mid then { m with health := h } :: rest
    else m :: setMonsterHealth rest mid h

/-- The removal `gameState.monsters.filter(m => m.id !== monsterId)`. -/
def removeMonster (ms : List Monster) (mid : Nat) : List Monster :=
  ms.filter (fun m => !(m.id == mid))

/-- The function `handleClientMessage(ws, message)` (part_004 lines 191-304).
The `attack` and `fireballHit` branches are deliberately written out in
full twice, mirroring the duplicated source code. -/
def handleClientMessage (st : GameState) (senderId : Nat) (msg : ClientMsg) (env : Env) :
    GameState × Effects :=
  match findPlayer st.players senderId with
  | none => (st, noEffects)
  | some player =>
    match msg with
    | .move x y =>
      if isValidMove st.map x y then
        ({ st with players := setPlayerPos st.players senderId x y },
         { broadcasts := [{ msg := .playerMoved senderId x y, exclude := none }],
           respawnDelays := [] })
      else (st, noEffects)
    | .fireball targetX targetY =>
      let fb : Fireball :=
        { id := env.freshId, playerId := senderId, startX := player.x, startY := player.y,
          targetX := targetX, targetY := targetY, timestamp := env.now }
      ({ st with fireballs := st.fireballs ++ [fb] },
       { broadcasts := [{ msg := .fireballCast fb, exclude := none }], respawnDelays := [] })
    | .attack targetMonsterId =>
      match findMonster st.monsters targetMonsterId with
      | none => (st, noEffects)
      | some monster =>
        let damage : Int := ((env.meleeRoll % 5 : Nat) : Int) + 8
        let newHealth := monster.health - damage
        if newHealth ≤ 0 then
          ({ st with monsters := removeMonster st.monsters targetMonsterId },
           { broadcasts := [{ msg := .monsterDied targetMonsterId, exclude := none }],
             respawnDelays := [5000] })
        else
          ({ st with monsters := setMonsterHealth st.monsters targetMonsterId newHealth },
           { broadcasts :=
               [{ msg := .monsterDamaged targetMonsterId newHealth damage, exclude := none }],
             respawnDelays := [] })
    | .fireballHit hitMonsterId =>
      match findMonster st.monsters hitMonsterId with
      | none => (st, noEffects)
      | some hitMonster =>
        let damage : Int := 15
        let newHealth := hitMonster.health - damage
        if newHealth ≤ 0 then
          ({ st with monsters := removeMonster st.monsters hitMonsterId },
           { broadcasts := [{ msg := .monsterDied hitMonsterId, exclude := none }],
             respawnDelays := [5000] })
        else
          ({ st with monsters := setMonsterHealth st.monsters hitMonsterId newHealth },
           { broadcasts :=
               [{ msg := .monsterDamaged hitMonsterId newHealth damage, exclude := none }],
             respawnDelays := [] })

/-- One live connection as seen by `wss.clients`: its bound player id and
whether `readyState === WebSocket.OPEN`. -/
structure Client where
  playerId : Nat
  isOpen : Bool
deriving DecidableEq

/-- Deliveries of a single `broadcast` call (part_004 lines 115-121):
every open client other than the excluded one receives the message. -/
def deliverOne (clients : List Client) (bc : BroadcastCall) : List (Nat × ServerMsg) :=
  (clients.filter (fun c => c.isOpen && !(bc.exclude == some c.playerId))).map
    (fun c => (c.playerId, bc.msg))

/-- Deliveries of a list of broadcast calls, in order. -/
def deliverAll (clients : List Client) : List BroadcastCall → List (Nat × ServerMsg)
  | [] => []
  | bc :: rest => deliverOne clients bc ++ deliverAll clients rest

/-- One sample of `findSpawnPosition`:
`Math.floor(Math.random() * (MAP_WIDTH - 4)) + 2` and the same for y
(part_004 lines 106-107), fed by the random stream `rs`. -/
def sampleSpawn (rs : Nat → Nat × Nat) (i : Nat) : Int × Int :=
  ((((rs i).1 % (MAP_WIDTH - 4) : Nat) : Int) + 2,
   (((rs i).2 % (MAP_HEIGHT - 4) : Nat) : Int) + 2)

/-- The do/while loop of `findSpawnPosition` (part_004 lines 105-109):
attempt `i` is returned if its sample is walkable or the fuel (remaining
allowed retries) is exhausted. -/
def findSpawnAux (m : GameMap) (rs : Nat → Nat × Nat) : Nat → Nat → Int × Int
  | i, 0 => sampleSpawn rs i
  | i, fuel+1 =>
    let p := sampleSpawn rs i
    if isValidMove m p.1 p.2 then p else findSpawnAux m rs (i+1) fuel

/-- The function `findSpawnPosition()` (part_004 lines 102-112): up to 100 attempts,
the 100th sample is returned unconditionally. -/
def findSpawnPosition (m : GameMap) (rs : Nat → Nat × Nat) : Int × Int :=
  findSpawnAux m rs 0 99

/-- Result of `wss.on('connection')` (part_004 lines 131-166): new state,
the assigned id, the `init` message sent to the new client, and the
`playerJoined` broadcast (which excludes the new session). -/
structure ConnResult where
  state : GameState
  newPlayerId : Nat
  initSend : ServerMsg
  broadcasts : List BroadcastCall
deriving DecidableEq

/-- The connection handler (part_004 lines 131-166). -/
def handleConnection (st : GameState) (rs : Nat → Nat × Nat) : ConnResult :=
  let playerId := st.nextPlayerId
  let spawnPos := findSpawnPosition st.map rs
  let player : Player :=
    { id := playerId, x := spawnPos.1, y := spawnPos.2, health := 100, maxHealth := 100,
      name := "Player" ++ toString playerId }
  let st2 : GameState :=
    { st with players := st.players ++ [player], nextPlayerId := playerId + 1 }
  { state := st2, newPlayerId := playerId,
    initSend := .initMsg playerId st2.map st2.players st2.monsters,
    broadcasts := [{ msg := .playerJoined player, exclude := some playerId }] }

/-- The `close` handler (part_004 lines 179-187). -/
def handleDisconnect (st : GameState) (playerId : Nat) : GameState × List BroadcastCall :=
  ({ st with players := st.players.filter (fun p => !(p.id == playerId)) },
   [{ msg := .playerLeft playerId, exclude := none }])

/-- Squared Euclidean distance; the source compares `Math.sqrt` of this,
which is order-isomorphic. -/
def sqDist (x1 y1 x2 y2 : Int) : Int := (x1 - x2) ^ 2 + (y1 - y2) ^ 2

/-- Nearest-player search (part_004 lines 325-338): first strict improver
wins, ties keep the earlier player. -/
def nearestPlayer (ps : List Player) (mx my : Int) : Option Player :=
  ps.foldl
    (fun best p =>
      match best with
      | none => some p
      | some q => if sqDist p.x p.y mx my < sqDist q.x q.y mx my then some p else best)
    none

/-- The shared greedy direction choice (part_004 lines 342-355, identical
logic at part_000 lines 238-253): prefer the axis with the larger absolute
delta; on a tie with `dx != 0`, go diagonal. -/
def greedyDelta (dx dy : Int) : Int × Int :=
  if dx.natAbs > dy.natAbs then (if dx > 0 then 1 else -1, 0)
  else if dy.natAbs > dx.natAbs then (0, if dy > 0 then 1 else -1)
  else if dx ≠ 0 then (if dx > 0 then 1 else -1, if dy > 0 then 1 else -1)
  else (0, 0)

/-- The server monster step (part_004 lines 340-370): a single candidate
tile is tried; if `isValidMove` rejects it the monster stays put. -/
def serverMonsterStep (m : GameMap) (mx my px py : Int) : Int × Int :=
  let d := greedyDelta (px - mx) (py - my)
  let newX := mx + d.1
  let newY := my + d.2
  if isValidMove m newX newY then (newX, newY) else (mx, my)

/-- The client method `Entity.canMoveTo` (part_000 lines 66-71): same test as the server's
`isValidMove`, duplicated on the client. -/
def canMoveTo (m : GameMap) (x y : Int) : Bool :=
  if x < 0 || (MAP_WIDTH : Int) ≤ x || y < 0 || (MAP_HEIGHT : Int) ≤ y then false
  else ((tileAt m x y).map Tile.walkable).getD false

/-- The client method `Monster.moveTowardsPlayer` (part_000 lines 237-263): primary candidate,
then — only when `moveX != 0` — fall back to the horizontal-only and then
the vertical-only step. -/
def moveTowardsPlayer (m : GameMap) (mx my px py : Int) : Int × Int :=
  let d := greedyDelta (px - mx) (py - my)
  if canMoveTo m (mx + d.1) (my + d.2) then (mx + d.1, my + d.2)
  else if d.1 ≠ 0 then
    if canMoveTo m (mx + d.1) my then (mx + d.1, my)
    else if canMoveTo m mx (my + d.2) then (mx, my + d.2)
    else (mx, my)
  else (mx, my)

/-- Nondeterministic inputs of one AI tick for one monster: the clock, the
attack chance draw `Math.random() < 0.3` and the damage roll
`Math.floor(Math.random() * 6)`. -/
structure AiEnv where
  now : Int
  attackRoll : Bool
  dmgRoll : Nat
deriving DecidableEq

/-- The per-monster body of `gameLoop` (part_004 lines 319-393): pacing
gate, nearest-player search, one greedy move attempt, then the attack
branch (distance measured from the monster's pre-move position). -/
def monsterTick (mp : GameMap) (players : List Player) (mon : Monster) (ae : AiEnv) :
    List Player × Monster × List BroadcastCall :=
  if ae.now - mon.lastMove > 500 then
    let mon1 : Monster := { mon with lastMove := ae.now }
    match nearestPlayer players mon.x mon.y with
    | none => (players, mon1, [])
    | some np =>
      let d := greedyDelta (np.x - mon1.x) (np.y - mon1.y)
      let newX := mon1.x + d.1
      let newY := mon1.y + d.2
      let stepRes : Monster × List BroadcastCall :=
        if isValidMove mp newX newY then
          ({ mon1 with x := newX, y := newY },
           [{ msg := .monsterMoved mon1.id newX newY, exclude := none }])
        else (mon1, [])
      if sqDist np.x np.y mon.x mon.y ≤ 2 && ae.attackRoll then
        let damage : Int := ((ae.dmgRoll % 6 : Nat) : Int) + 5
        let newHealth := np.health - damage
        (setPlayerHealth players np.id newHealth, stepRes.1,
         stepRes.2 ++ [{ msg := .playerDamaged np.id newHealth damage, exclude := none }] ++
           (if newHealth ≤ 0 then [{ msg := .playerDied np.id, exclude := none }] else []))
      else (players, stepRes.1, stepRes.2)
  else (players, mon, [])

/-- Replace the first monster with the given id (in-place mutation of the
array element during `forEach`). -/
def replaceMonster : List Monster → Nat → Monster → List Monster
  | [], _, _ => []
  | m :: rest, mid, m2 => if m.id == mid then m2 :: rest else m :: replaceMonster rest mid m2

/-- One monster's AI tick lifted to the full game state. -/
def monsterTickState (st : GameState) (mid : Nat) (ae : AiEnv) : GameState × List BroadcastCall :=
  match findMonster st.monsters mid with
  | none => (st, [])
  | some mon =>
    let r := monsterTick st.map st.players mon ae
    ({ st with players := r.1, monsters := replaceMonster st.monsters mid r.2.1 }, r.2.2)

/-- One sample of `spawnMonster` (part_004 lines 83-84):
`Math.floor(Math.random() * MAP_WIDTH)` and the same with the height. -/
def sampleMonster (rs : Nat → Nat × Nat) (i : Nat) : Int × Int :=
  ((((rs i).1 % MAP_WIDTH : Nat) : Int), (((rs i).2 % MAP_HEIGHT : Nat) : Int))

/-- The do/while loop of `spawnMonster` (part_004 lines 82-85), with fuel:
the source loops until `gameState.map[y][x].walkable`; running out of fuel
models the loop not having terminated yet. -/
def spawnMonsterAux (m : GameMap) (rs : Nat → Nat × Nat) : Nat → Nat → Option (Int × Int)
  | _, 0 => none
  | i, fuel+1 =>
    let p := sampleMonster rs i
    if ((tileAt m p.1 p.2).map Tile.walkable).getD false then some p
    else spawnMonsterAux m rs (i+1) fuel

/-- The function `spawnMonster()` (part_004 lines 80-99): position search plus the new
monster record (id drawn from the environment, health 50). -/
def spawnMonster (m : GameMap) (rs : Nat → Nat × Nat) (fuel : Nat) (newId : Nat) (now : Int) :
    Option Monster :=
  (spawnMonsterAux m rs 0 fuel).map
    (fun p => { id := newId, x := p.1, y := p.2, health := 50, maxHealth := 50, lastMove := now })

/-! ## Concrete fixtures -/

/-- A fully walkable 20 x 15 map (all GRASS). -/
def allGrass : GameMap := List.replicate MAP_HEIGHT (List.replicate MAP_WIDTH { walkable := true })

/-- A fully non-walkable 20 x 15 map (all WATER). -/
def allWater : GameMap := List.replicate MAP_HEIGHT (List.replicate MAP_WIDTH { walkable := false })

/-- A walkable map with the single tile (3, 3) blocked. -/
def blockedDiagMap : GameMap :=
  (List.range MAP_HEIGHT).map (fun y =>
    (List.range MAP_WIDTH).map (fun x => { walkable := !(x == 3 && y == 3) }))

/-- A fixed environment draw. -/
def env0 : Env := { freshId := 0, now := 0, meleeRoll := 0 }

/-- The constant random stream. -/
def rs0 : Nat → Nat × Nat := fun _ => (0, 0)

def demoPlayer : Player :=
  { id := 1, x := 3, y := 3, health := 100, maxHealth := 100, name := "Player1" }

def demoState : GameState :=
  { players := [demoPlayer], monsters := [], fireballs := [], map := allGrass, nextPlayerId := 2 }

/-! ## Helper lemmas -/

/-- The test `isValidMove` unfolded into bounds plus the tile flag. -/
theorem isValidMove_iff (m : GameMap) (x y : Int) :
    isValidMove m x y = true ↔
      0 ≤ x ∧ x < (MAP_WIDTH : Int) ∧ 0 ≤ y ∧ y < (MAP_HEIGHT : Int) ∧
        ∃ t, tileAt m x y = some t ∧ t.walkable = true := by
  unfold isValidMove
  rcases htile : tileAt m x y with _ | t
  · split
    · simp
    · simp [htile]
  · split
    · rename_i hb
      simp only [Bool.or_eq_true, decide_eq_true_eq] at hb
      constructor
      · intro h; simp at h
      · rintro ⟨h1, h2, h3, h4, _⟩
        omega
    · rename_i hb
      simp only [Bool.or_eq_true, decide_eq_true_eq, not_or, not_lt, not_le] at hb
      obtain ⟨⟨⟨hb1, hb2⟩, hb3⟩, hb4⟩ := hb
      simp only [htile, Option.map_some', Option.getD_some]
      constructor
      · intro h
        exact ⟨hb1, hb2, hb3, hb4, t, rfl, h⟩
      · rintro ⟨_, _, _, _, t2, ht2, hw⟩
        cases ht2
        exact hw

/-- The client's `canMoveTo` is the same test as the server's `isValidMove`. -/
theorem canMoveTo_eq_isValidMove : canMoveTo = isValidMove := rfl

/-- Members of `setMonsterHealth ms mid h`, when `mid` resolves to `mon`,
are either untouched members of `ms` or `mon` with the new health. -/
theorem mem_setMonsterHealth {ms : List Monster} {mid : Nat} {h : Int} {mon : Monster}
    (hfind : findMonster ms mid = some mon) :
    ∀ m2 ∈ setMonsterHealth ms mid h, m2 ∈ ms ∨ m2 = { mon with health := h } := by
  induction ms with
  | nil => intro m2 hm2; cases hm2
  | cons m rest ih =>
    intro m2 hm2
    unfold findMonster at hfind
    rw [List.find?_cons] at hfind
    unfold setMonsterHealth at hm2
    by_cases hid : (m.id == mid) = true
    · rw [if_pos hid] at hm2
      rw [hid] at hfind
      cases hfind
      rcases List.mem_cons.mp hm2 with h1 | h1
      · right; exact h1
      · left; exact List.mem_cons_of_mem _ h1
    · rw [if_neg hid] at hm2
      rw [Bool.of_not_eq_true hid] at hfind
      rcases List.mem_cons.mp hm2 with h1 | h1
      · left; subst h1; exact List.mem_cons_self _ _
      · rcases ih hfind m2 h1 with h2 | h2
        · left; exact List.mem_cons_of_mem _ h2
        · right; exact h2

/-- Members of `removeMonster` are members of the original list. -/
theorem mem_removeMonster {ms : List Monster} {mid : Nat} :
    ∀ m2 ∈ removeMonster ms mid, m2 ∈ ms := by
  intro m2 hm2
  exact List.mem_of_mem_filter hm2

/-- A successful find gives membership, specialised to monsters. -/
theorem findMonster_mem {ms : List Monster} {mid : Nat} {mon : Monster}
    (h : findMonster ms mid = some mon) : mon ∈ ms :=
  List.mem_of_find?_eq_some h

/-! ## C1: move validation -/

/-- C1. A `move(x,y)` message from a registered player is accepted iff
`isValidMove` holds, which is equivalent to (x,y) being in-bounds with a
walkable tile; acceptance updates the sender's position and issues exactly
the `playerMoved` broadcast, rejection leaves the state unchanged with no
broadcasts and no scheduled timers. -/
theorem c1_move_validation (st : GameState) (sid : Nat) (x y : Int) (env : Env) (p : Player)
    (hp : findPlayer st.players sid = some p) :
    (isValidMove st.map x y = true →
      handleClientMessage st sid (.move x y) env =
        ({ st with players := setPlayerPos st.players sid x y },
         { broadcasts := [{ msg := .playerMoved sid x y, exclude := none }],
           respawnDelays := [] })) ∧
    (isValidMove st.map x y = false →
      handleClientMessage st sid (.move x y) env = (st, noEffects)) ∧
    (isValidMove st.map x y = true ↔
      0 ≤ x ∧ x < (MAP_WIDTH : Int) ∧ 0 ≤ y ∧ y < (MAP_HEIGHT : Int) ∧
        ∃ t, tileAt st.map x y = some t ∧ t.walkable = true) := by
  refine ⟨fun h => ?_, fun h => ?_, isValidMove_iff st.map x y⟩
  · simp [handleClientMessage, hp, h]
  · simp [handleClientMessage, hp, h]

/-- C1 witness: in the demo state the move to (4,3) is accepted and the
move to (-1,3) is silently rejected. -/
theorem c1_move_validation_witness :
    handleClientMessage demoState 1 (.move 4 3) env0 =
      ({ demoState with players := setPlayerPos demoState.players 1 4 3 },
       { broadcasts := [{ msg := .playerMoved 1 4 3, exclude := none }],
         respawnDelays := [] }) ∧
    handleClientMessage demoState 1 (.move (-1) 3) env0 = (demoState, noEffects) :=
  ⟨(c1_move_validation demoState 1 4 3 env0 demoPlayer (by decide)).1 (by decide),
   (c1_move_validation demoState 1 (-1) 3 env0 demoPlayer (by decide)).2.1 (by decide)⟩

/-! ## C10: messages from removed players -/

/-- C10. Any client message whose sender is no longer in the player
collection leaves the state unchanged and produces no broadcasts and no
timers. -/
theorem c10_unknown_sender_noop (st : GameState) (sid : Nat) (msg : ClientMsg) (env : Env)
    (h : findPlayer st.players sid = none) :
    handleClientMessage st sid msg env = (st, noEffects) := by
  simp [handleClientMessage, h]

/-- C10 witness: a move message from the removed player 7. -/
theorem c10_unknown_sender_noop_witness :
    handleClientMessage demoState 7 (.move 4 3) env0 = (demoState, noEffects) :=
  c10_unknown_sender_noop demoState 7 (.move 4 3) env0 (by decide)

/-! ## C3: playerMoved delivery -/

/-- Two open sessions, for players 1 and 2. -/
def c3Clients : List Client :=
  [{ playerId := 1, isOpen := true }, { playerId := 2, isOpen := true }]

/-- C3 counterexample: the sender (player 1) itself receives the
`playerMoved` broadcast for its accepted move, because the move handler
calls `broadcast` without an exclusion (part_004 lines 204-209), unlike
the `playerJoined` broadcast. -/
theorem c3_counterexample :
    (1, ServerMsg.playerMoved 1 4 3) ∈
      deliverAll c3Clients (handleClientMessage demoState 1 (.move 4 3) env0).2.broadcasts := by
  decide

/-- C3 amended: the `playerMoved` broadcast of an accepted move is
delivered to every open session, the sender included. -/
theorem c3_broadcast_includes_sender (clients : List Client) (st : GameState) (sid : Nat)
    (x y : Int) (env : Env) (p : Player)
    (hp : findPlayer st.players sid = some p) (hv : isValidMove st.map x y = true) :
    deliverAll clients (handleClientMessage st sid (.move x y) env).2.broadcasts =
      (clients.filter (fun c => c.isOpen)).map
        (fun c => (c.playerId, ServerMsg.playerMoved sid x y)) := by
  simp only [handleClientMessage, hp, hv, if_true, deliverAll, deliverOne, List.append_nil]
  congr 1
  apply List.filter_congr
  intro c _
  rcases c with ⟨pid, o⟩
  cases o <;> rfl

/-- C3 witness: with both sessions open, both players 1 and 2 get the
`playerMoved` message. -/
theorem c3_broadcast_includes_sender_witness :
    deliverAll c3Clients (handleClientMessage demoState 1 (.move 4 3) env0).2.broadcasts =
      (c3Clients.filter (fun c => c.isOpen)).map
        (fun c => (c.playerId, ServerMsg.playerMoved 1 4 3)) :=
  c3_broadcast_includes_sender c3Clients demoState 1 4 3 env0 demoPlayer (by decide) (by decide)

/-! ## C4: monster greedy step -/

/-- C4 counterexample: monster at (2,2) hunting a player at (4,4) — a
diagonal tie with the diagonal tile (3,3) blocked. The horizontal-only
fallback tile (3,2) is walkable, and the single-player variant
(part_000) does step there, but the server's step (part_004 lines
340-370) tries only the diagonal candidate and leaves the monster at
(2,2): the claimed diagonal → horizontal → vertical fallback does not
exist on the server. -/
theorem c4_counterexample :
    isValidMove blockedDiagMap 3 3 = false ∧
    isValidMove blockedDiagMap 3 2 = true ∧
    serverMonsterStep blockedDiagMap 2 2 4 4 = (2, 2) ∧
    moveTowardsPlayer blockedDiagMap 2 2 4 4 = (3, 2) := by
  decide

/-- C4 amended: the server's hunting step attempts only the single
preferred candidate (larger-delta axis, diagonal on a tie) and keeps the
position unchanged whenever that candidate fails `isValidMove`, with no
fallback; it never ends on a tile that fails the walkability test unless
it did not move at all. The single-player client variant
(`moveTowardsPlayer`) has the fallback and satisfies the same safety
property. -/
theorem c4_monster_step (m : GameMap) (mx my px py : Int) :
    (serverMonsterStep m mx my px py = (mx, my) ∨
      isValidMove m (serverMonsterStep m mx my px py).1
        (serverMonsterStep m mx my px py).2 = true) ∧
    (isValidMove m (mx + (greedyDelta (px - mx) (py - my)).1)
        (my + (greedyDelta (px - mx) (py - my)).2) = false →
      serverMonsterStep m mx my px py = (mx, my)) ∧
    (moveTowardsPlayer m mx my px py = (mx, my) ∨
      isValidMove m (moveTowardsPlayer m mx my px py).1
        (moveTowardsPlayer m mx my px py).2 = true) := by
  refine ⟨?_, ?_, ?_⟩
  · by_cases h : isValidMove m (mx + (greedyDelta (px - mx) (py - my)).1)
        (my + (greedyDelta (px - mx) (py - my)).2) = true
    · right; simp [serverMonsterStep, h]
    · left; simp [serverMonsterStep, h]
  · intro h
    simp [serverMonsterStep, h]
  · simp only [moveTowardsPlayer, canMoveTo_eq_isValidMove]
    split_ifs with h1 h2 h3 h4
    · right; simpa using h1
    · right; simpa using h3
    · right; simpa using h4
    · left; rfl
    · left; rfl

/-- C4 witness: at the counterexample configuration the amended theorem
yields that the server monster stays put. -/
theorem c4_monster_step_witness :
    serverMonsterStep blockedDiagMap 2 2 4 4 = (2, 2) :=
  (c4_monster_step blockedDiagMap 2 2 4 4).2.1 (by decide)

/-! ## C2: monster health -/

/-- The fireballHit handler, death branch, characterised. -/
theorem fireballHit_dead (st : GameState) (sid mid : Nat) (env : Env) (p : Player)
    (mon : Monster) (hp : findPlayer st.players sid = some p)
    (hm : findMonster st.monsters mid = some mon) (hd : mon.health - 15 ≤ 0) :
    handleClientMessage st sid (.fireballHit mid) env =
      ({ st with monsters := removeMonster st.monsters mid },
       { broadcasts := [{ msg := .monsterDied mid, exclude := none }],
         respawnDelays := [5000] }) := by
  simp [handleClientMessage, hp, hm, hd]

/-- The fireballHit handler, survival branch, characterised. -/
theorem fireballHit_alive (st : GameState) (sid mid : Nat) (env : Env) (p : Player)
    (mon : Monster) (hp : findPlayer st.players sid = some p)
    (hm : findMonster st.monsters mid = some mon) (hd : 0 < mon.health - 15) :
    handleClientMessage st sid (.fireballHit mid) env =
      ({ st with monsters := setMonsterHealth st.monsters mid (mon.health - 15) },
       { broadcasts := [{ msg := .monsterDamaged mid (mon.health - 15) 15, exclude := none }],
         respawnDelays := [] }) := by
  have hd2 : ¬ mon.health - 15 ≤ 0 := by omega
  simp [handleClientMessage, hp, hm, hd2]

/-- The demo monster with 50 health. -/
def c2Monster : Monster := { id := 77, x := 5, y := 5, health := 50, maxHealth := 50, lastMove := 0 }

def c2State : GameState :=
  { players := [demoPlayer], monsters := [c2Monster], fireballs := [], map := allGrass,
    nextPlayerId := 2 }

def c2s1 : GameState := (handleClientMessage c2State 1 (.fireballHit 77) env0).1

def c2s2 : GameState := (handleClientMessage c2s1 1 (.fireballHit 77) env0).1

def c2s3 : GameState := (handleClientMessage c2s2 1 (.fireballHit 77) env0).1

/-- C2. Monster health after a fireballHit never increases and stays
positive in the stored collection (a dead monster is removed in the same
handler run, so no negative health is ever observable); the death branch
emits exactly one `monsterDied` broadcast and schedules exactly one
respawn at 5000 ms; other messages never change monster health; and the
concrete scenario runs 50 → 35 → 20 → 5 → death. -/
theorem c2_monster_health (st : GameState) (sid mid : Nat) (env : Env) (p : Player)
    (hp : findPlayer st.players sid = some p) :
    (∀ m2 ∈ (handleClientMessage st sid (.fireballHit mid) env).1.monsters,
      ∃ m1 ∈ st.monsters, m2.id = m1.id ∧ m2.health ≤ m1.health ∧
        (0 < m1.health → 0 < m2.health)) ∧
    (∀ mon, findMonster st.monsters mid = some mon → mon.health - 15 ≤ 0 →
      handleClientMessage st sid (.fireballHit mid) env =
        ({ st with monsters := removeMonster st.monsters mid },
         { broadcasts := [{ msg := .monsterDied mid, exclude := none }],
           respawnDelays := [5000] })) ∧
    (∀ mon, findMonster st.monsters mid = some mon → 0 < mon.health - 15 →
      handleClientMessage st sid (.fireballHit mid) env =
        ({ st with monsters := setMonsterHealth st.monsters mid (mon.health - 15) },
         { broadcasts := [{ msg := .monsterDamaged mid (mon.health - 15) 15, exclude := none }],
           respawnDelays := [] })) ∧
    (∀ mx my : Int, (handleClientMessage st sid (.move mx my) env).1.monsters = st.monsters) ∧
    (∀ tx ty : Int,
      (handleClientMessage st sid (.fireball tx ty) env).1.monsters = st.monsters) ∧
    (c2s1.monsters.map Monster.health = [35] ∧
     c2s2.monsters.map Monster.health = [20] ∧
     c2s3.monsters.map Monster.health = [5] ∧
     handleClientMessage c2s3 1 (.fireballHit 77) env0 =
       ({ c2s3 with monsters := [] },
        { broadcasts := [{ msg := .monsterDied 77, exclude := none }],
          respawnDelays := [5000] })) := by
  refine ⟨?_, ?_, ?_, ?_, ?_, ?_⟩
  · rcases hm : findMonster st.monsters mid with _ | mon
    · simp only [handleClientMessage, hp, hm]
      intro m2 hm2
      exact ⟨m2, hm2, rfl, le_refl _, fun h => h⟩
    · by_cases hd : mon.health - 15 ≤ 0
      · rw [fireballHit_dead st sid mid env p mon hp hm hd]
        intro m2 hm2
        exact ⟨m2, mem_removeMonster m2 hm2, rfl, le_refl _, fun h => h⟩
      · have hd2 : 0 < mon.health - 15 := by omega
        rw [fireballHit_alive st sid mid env p mon hp hm hd2]
        intro m2 hm2
        rcases mem_setMonsterHealth hm m2 hm2 with h1 | h1
        · exact ⟨m2, h1, rfl, le_refl _, fun h => h⟩
        · subst h1
          refine ⟨mon, findMonster_mem hm, rfl, ?_, fun _ => ?_⟩
          · show mon.health - 15 ≤ mon.health
            omega
          · show (0 : Int) < mon.health - 15
            exact hd2
  · intro mon hm hd
    exact fireballHit_dead st sid mid env p mon hp hm hd
  · intro mon hm hd
    exact fireballHit_alive st sid mid env p mon hp hm hd
  · intro mx my
    by_cases hv : isValidMove st.map mx my = true
    · simp [handleClientMessage, hp, hv]
    · simp [handleClientMessage, hp, hv]
  · intro tx ty
    simp [handleClientMessage, hp]
  · refine ⟨by decide, by decide, by decide, by decide⟩

/-- C2 witness: the general facts applied in the demo state — the first
fireballHit takes the 50-health monster to 35. -/
theorem c2_monster_health_witness :
    handleClientMessage c2State 1 (.fireballHit 77) env0 =
      ({ c2State with monsters := setMonsterHealth c2State.monsters 77 (50 - 15) },
       { broadcasts := [{ msg := .monsterDamaged 77 (50 - 15) 15, exclude := none }],
         respawnDelays := [] }) :=
  (c2_monster_health c2State 1 77 env0 demoPlayer (by decide)).2.2.1 c2Monster
    (by decide) (by decide)

/-! ## C5: attack vs fireballHit -/

/-- The damage-application contract as worded by the spec (section 4.4):
look the monster up, no-op if absent, subtract the damage, then either
broadcast the damage update, or remove the monster, broadcast its death
and schedule a 5000 ms respawn. Written from the spec to compare the two
handler branches against. -/
def specDamageApplication (st : GameState) (mid : Nat) (damage : Int) : GameState × Effects :=
  match findMonster st.monsters mid with
  | none => (st, noEffects)
  | some monster =>
    let newHealth := monster.health - damage
    if newHealth ≤ 0 then
      ({ st with monsters := removeMonster st.monsters mid },
       { broadcasts := [{ msg := .monsterDied mid, exclude := none }], respawnDelays := [5000] })
    else
      ({ st with monsters := setMonsterHealth st.monsters mid newHealth },
       { broadcasts := [{ msg := .monsterDamaged mid newHealth damage, exclude := none }],
         respawnDelays := [] })

/-- C5. Both damage handlers implement the same contract, differing only
in the damage value: the melee value is `meleeRoll % 5 + 8`, which ranges
over exactly the integers 8..12, while fireballHit uses the fixed 15. -/
theorem c5_damage_contract (st : GameState) (sid mid : Nat) (env : Env) (p : Player)
    (hp : findPlayer st.players sid = some p) :
    handleClientMessage st sid (.attack mid) env =
      specDamageApplication st mid (((env.meleeRoll % 5 : Nat) : Int) + 8) ∧
    handleClientMessage st sid (.fireballHit mid) env = specDamageApplication st mid 15 ∧
    8 ≤ ((env.meleeRoll % 5 : Nat) : Int) + 8 ∧ ((env.meleeRoll % 5 : Nat) : Int) + 8 ≤ 12 ∧
    (∀ d : Int, 8 ≤ d → d ≤ 12 → ∃ r : Nat, ((r % 5 : Nat) : Int) + 8 = d) := by
  have h5 : env.meleeRoll % 5 < 5 := Nat.mod_lt _ (by norm_num)
  refine ⟨?_, ?_, by omega, by omega, ?_⟩
  · rcases hm : findMonster st.monsters mid with _ | mon
    · simp [handleClientMessage, specDamageApplication, hp, hm]
    · by_cases hd : mon.health - (((env.meleeRoll % 5 : Nat) : Int) + 8) ≤ 0
      · simp [handleClientMessage, specDamageApplication, hp, hm, hd]
      · simp [handleClientMessage, specDamageApplication, hp, hm, hd]
  · rcases hm : findMonster st.monsters mid with _ | mon
    · simp [handleClientMessage, specDamageApplication, hp, hm]
    · by_cases hd : mon.health - 15 ≤ 0
      · simp [handleClientMessage, specDamageApplication, hp, hm, hd]
      · simp [handleClientMessage, specDamageApplication, hp, hm, hd]
  · intro d h1 h2
    refine ⟨(d - 8).toNat, ?_⟩
    have h3 : ((d - 8).toNat : Int) = d - 8 := Int.toNat_of_nonneg (by omega)
    have h4 : (d - 8).toNat < 5 := by omega
    rw [Nat.mod_eq_of_lt h4, h3]
    omega

/-- C5 witness: in the demo state the melee attack on monster 77
coincides with the spec contract at damage `0 % 5 + 8 = 8`. -/
theorem c5_damage_contract_witness :
    handleClientMessage c2State 1 (.attack 77) env0 =
      specDamageApplication c2State 77 (((env0.meleeRoll % 5 : Nat) : Int) + 8) :=
  (c5_damage_contract c2State 1 77 env0 demoPlayer (by decide)).1

/-! ## C9: findSpawnPosition -/

/-- The spawn search always returns one of its samples. -/
theorem findSpawnAux_is_sample (m : GameMap) (rs : Nat → Nat × Nat) :
    ∀ fuel i, ∃ j, i ≤ j ∧ j ≤ i + fuel ∧ findSpawnAux m rs i fuel = sampleSpawn rs j := by
  intro fuel
  induction fuel with
  | zero => intro i; exact ⟨i, le_refl _, by omega, rfl⟩
  | succ n ih =>
    intro i
    by_cases h : isValidMove m (sampleSpawn rs i).1 (sampleSpawn rs i).2 = true
    · exact ⟨i, le_refl _, by omega, by simp [findSpawnAux, h]⟩
    · obtain ⟨j, hj1, hj2, hj3⟩ := ih (i + 1)
      exact ⟨j, by omega, by omega, by simp [findSpawnAux, h, hj3]⟩

/-- If some sample within the window is walkable, the returned position
is walkable. -/
theorem findSpawnAux_walkable (m : GameMap) (rs : Nat → Nat × Nat) :
    ∀ fuel i,
      (∃ j, i ≤ j ∧ j ≤ i + fuel ∧
        isValidMove m (sampleSpawn rs j).1 (sampleSpawn rs j).2 = true) →
      isValidMove m (findSpawnAux m rs i fuel).1 (findSpawnAux m rs i fuel).2 = true := by
  intro fuel
  induction fuel with
  | zero =>
    rintro i ⟨j, hj1, hj2, hj3⟩
    have hji : j = i := by omega
    subst hji
    simpa [findSpawnAux] using hj3
  | succ n ih =>
    rintro i ⟨j, hj1, hj2, hj3⟩
    by_cases h : isValidMove m (sampleSpawn rs i).1 (sampleSpawn rs i).2 = true
    · simp [findSpawnAux, h]
    · have hji : j ≠ i := by
        intro he
        rw [he] at hj3
        exact h hj3
      have h2 := ih (i + 1) ⟨j, by omega, by omega, hj3⟩
      simpa [findSpawnAux, h] using h2

/-- If every sample in the window is non-walkable, the last sample is
returned regardless. -/
theorem findSpawnAux_all_fail (m : GameMap) (rs : Nat → Nat × Nat) :
    ∀ fuel i,
      (∀ j, i ≤ j → j ≤ i + fuel →
        isValidMove m (sampleSpawn rs j).1 (sampleSpawn rs j).2 = false) →
      findSpawnAux m rs i fuel = sampleSpawn rs (i + fuel) := by
  intro fuel
  induction fuel with
  | zero => intro i _; simp [findSpawnAux]
  | succ n ih =>
    intro i hall
    have h : isValidMove m (sampleSpawn rs i).1 (sampleSpawn rs i).2 = false :=
      hall i (le_refl _) (by omega)
    have h2 := ih (i + 1) (fun j hj1 hj2 => hall j (by omega) (by omega))
    have h3 : i + 1 + n = i + (n + 1) := by omega
    rw [h3] at h2
    simp [findSpawnAux, h, h2]

/-- Every spawn sample lies in the edge-biased window. -/
theorem sampleSpawn_bounds (rs : Nat → Nat × Nat) (i : Nat) :
    2 ≤ (sampleSpawn rs i).1 ∧ (sampleSpawn rs i).1 ≤ (MAP_WIDTH : Int) - 3 ∧
    2 ≤ (sampleSpawn rs i).2 ∧ (sampleSpawn rs i).2 ≤ (MAP_HEIGHT : Int) - 3 := by
  simp only [sampleSpawn, MAP_WIDTH, MAP_HEIGHT]
  omega

/-- C9. `findSpawnPosition` returns one of at most 100 samples, every
sample lies in x ∈ [2, width-3], y ∈ [2, height-3]; if a walkable
position is sampled within the cap it is returned (so the result is
walkable), otherwise the 100th sample is returned regardless of
walkability. -/
theorem c9_spawn_search (m : GameMap) (rs : Nat → Nat × Nat) :
    (∃ j, j < 100 ∧ findSpawnPosition m rs = sampleSpawn rs j) ∧
    (∀ i, 2 ≤ (sampleSpawn rs i).1 ∧ (sampleSpawn rs i).1 ≤ (MAP_WIDTH : Int) - 3 ∧
      2 ≤ (sampleSpawn rs i).2 ∧ (sampleSpawn rs i).2 ≤ (MAP_HEIGHT : Int) - 3) ∧
    ((∃ j, j < 100 ∧ isValidMove m (sampleSpawn rs j).1 (sampleSpawn rs j).2 = true) →
      isValidMove m (findSpawnPosition m rs).1 (findSpawnPosition m rs).2 = true) ∧
    ((∀ j, j < 100 → isValidMove m (sampleSpawn rs j).1 (sampleSpawn rs j).2 = false) →
      findSpawnPosition m rs = sampleSpawn rs 99) := by
  refine ⟨?_, fun i => sampleSpawn_bounds rs i, ?_, ?_⟩
  · obtain ⟨j, hj1, hj2, hj3⟩ := findSpawnAux_is_sample m rs 99 0
    exact ⟨j, by omega, hj3⟩
  · rintro ⟨j, hj, hw⟩
    exact findSpawnAux_walkable m rs 99 0 ⟨j, by omega, by omega, hw⟩
  · intro hall
    have h := findSpawnAux_all_fail m rs 99 0 (fun j _ hj2 => hall j (by omega))
    simpa [findSpawnPosition] using h

/-- C9 witness: on the all-water map with a constant random stream, every
sample fails and the search returns the 100th sample, position (2,2). -/
theorem c9_spawn_search_witness :
    findSpawnPosition allWater rs0 = sampleSpawn rs0 99 ∧
    sampleSpawn rs0 99 = (2, 2) :=
  ⟨(c9_spawn_search allWater rs0).2.2.2
      (fun j _ => show isValidMove allWater 2 2 = false from by decide), by decide⟩

/-! ## C6: walkability invariant -/

/-- Every entity of the state sits on an in-bounds walkable tile. -/
def entitiesOnWalkable (st : GameState) : Prop :=
  (∀ p ∈ st.players, isValidMove st.map p.x p.y = true) ∧
  (∀ m ∈ st.monsters, isValidMove st.map m.x m.y = true)

/-- Bounds plus a walkable tile imply `isValidMove`. -/
theorem isValidMove_of_tile (m : GameMap) (x y : Int) (hx0 : 0 ≤ x)
    (hx1 : x < (MAP_WIDTH : Int)) (hy0 : 0 ≤ y) (hy1 : y < (MAP_HEIGHT : Int))
    (ht : ((tileAt m x y).map Tile.walkable).getD false = true) :
    isValidMove m x y = true := by
  unfold isValidMove
  rw [if_neg]
  · exact ht
  · simp only [Bool.or_eq_true, decide_eq_true_eq, not_or, not_lt, not_le]
    exact ⟨⟨⟨hx0, hx1⟩, hy0⟩, hy1⟩

/-- Members of `setPlayerPos` either carry the new position or were
already present. -/
theorem mem_setPlayerPos {ps : List Player} {pid : Nat} {x y : Int} :
    ∀ p2 ∈ setPlayerPos ps pid x y, (p2.x = x ∧ p2.y = y) ∨ p2 ∈ ps := by
  intro p2 hp2
  unfold setPlayerPos at hp2
  rcases List.mem_map.mp hp2 with ⟨p1, hp1, heq⟩
  by_cases hc : (p1.id == pid) = true
  · rw [if_pos hc] at heq
    left
    rw [← heq]
    exact ⟨rfl, rfl⟩
  · rw [if_neg hc] at heq
    right
    rw [← heq]
    exact hp1

/-- Members of `setPlayerHealth` keep the position of a prior member. -/
theorem mem_setPlayerHealth_pos {ps : List Player} {pid : Nat} {h : Int} :
    ∀ p2 ∈ setPlayerHealth ps pid h, ∃ p1 ∈ ps, p2.x = p1.x ∧ p2.y = p1.y := by
  intro p2 hp2
  unfold setPlayerHealth at hp2
  rcases List.mem_map.mp hp2 with ⟨p1, hp1, heq⟩
  by_cases hc : (p1.id == pid) = true
  · rw [if_pos hc] at heq
    exact ⟨p1, hp1, by rw [← heq], by rw [← heq]⟩
  · rw [if_neg hc] at heq
    exact ⟨p1, hp1, by rw [← heq], by rw [← heq]⟩

/-- Members of `replaceMonster` are old members or the replacement. -/
theorem mem_replaceMonster {ms : List Monster} {mid : Nat} {m2 : Monster} :
    ∀ m3 ∈ replaceMonster ms mid m2, m3 ∈ ms ∨ m3 = m2 := by
  induction ms with
  | nil => intro m3 hm3; cases hm3
  | cons m rest ih =>
    intro m3 hm3
    unfold replaceMonster at hm3
    by_cases hc : (m.id == mid) = true
    · rw [if_pos hc] at hm3
      rcases List.mem_cons.mp hm3 with h1 | h1
      · right; exact h1
      · left; exact List.mem_cons_of_mem _ h1
    · rw [if_neg hc] at hm3
      rcases List.mem_cons.mp hm3 with h1 | h1
      · left; subst h1; exact List.mem_cons_self _ _
      · rcases ih m3 h1 with h2 | h2
        · left; exact List.mem_cons_of_mem _ h2
        · right; exact h2

/-- The monster coming out of one AI tick kept its position or sits on a
tile passing `isValidMove`. -/
theorem monsterTick_monster_pos (mp : GameMap) (ps : List Player) (mon : Monster) (ae : AiEnv) :
    ((monsterTick mp ps mon ae).2.1.x = mon.x ∧ (monsterTick mp ps mon ae).2.1.y = mon.y) ∨
      isValidMove mp (monsterTick mp ps mon ae).2.1.x (monsterTick mp ps mon ae).2.1.y
        = true := by
  by_cases hg : ae.now - mon.lastMove > 500
  · rcases hnp : nearestPlayer ps mon.x mon.y with _ | np
    · left
      simp [monsterTick, hg, hnp]
    · by_cases hv : isValidMove mp (mon.x + (greedyDelta (np.x - mon.x) (np.y - mon.y)).1)
          (mon.y + (greedyDelta (np.x - mon.x) (np.y - mon.y)).2) = true
      · right
        cases hb : decide (sqDist np.x np.y mon.x mon.y ≤ 2) && ae.attackRoll <;>
          simp [monsterTick, hg, hnp, hv, hb]
      · left
        cases hb : decide (sqDist np.x np.y mon.x mon.y ≤ 2) && ae.attackRoll <;>
          simp [monsterTick, hg, hnp, hv, hb]
  · left
    simp [monsterTick, hg]

/-- The players coming out of one AI tick keep positions of prior
members (only health is written). -/
theorem monsterTick_players_pos (mp : GameMap) (ps : List Player) (mon : Monster) (ae : AiEnv) :
    ∀ p2 ∈ (monsterTick mp ps mon ae).1, ∃ p1 ∈ ps, p2.x = p1.x ∧ p2.y = p1.y := by
  by_cases hg : ae.now - mon.lastMove > 500
  · rcases hnp : nearestPlayer ps mon.x mon.y with _ | np
    · intro p2 hp2
      rw [monsterTick] at hp2
      simp only [hg, if_true, hnp] at hp2
      exact ⟨p2, hp2, rfl, rfl⟩
    · by_cases hv : isValidMove mp (mon.x + (greedyDelta (np.x - mon.x) (np.y - mon.y)).1)
          (mon.y + (greedyDelta (np.x - mon.x) (np.y - mon.y)).2) = true <;>
        cases hb : decide (sqDist np.x np.y mon.x mon.y ≤ 2) && ae.attackRoll <;>
        intro p2 hp2 <;>
        rw [monsterTick] at hp2 <;>
        simp only [hg, if_true, hnp, hv, hb, Bool.false_eq_true, if_false,
          Bool.and_eq_true, decide_eq_true_eq] at hp2
      · exact ⟨p2, hp2, rfl, rfl⟩
      · exact mem_setPlayerHealth_pos p2 hp2
      · exact ⟨p2, hp2, rfl, rfl⟩
      · exact mem_setPlayerHealth_pos p2 hp2
  · intro p2 hp2
    rw [monsterTick] at hp2
    simp only [hg, if_false] at hp2
    exact ⟨p2, hp2, rfl, rfl⟩

/-- A successful monster-spawn search result is walkable and in-bounds. -/
theorem spawnMonsterAux_walkable (m : GameMap) (rs : Nat → Nat × Nat) :
    ∀ fuel i p, spawnMonsterAux m rs i fuel = some p → isValidMove m p.1 p.2 = true := by
  intro fuel
  induction fuel with
  | zero => intro i p h; cases h
  | succ n ih =>
    intro i p h
    by_cases hw : ((tileAt m (sampleMonster rs i).1 (sampleMonster rs i).2).map
        Tile.walkable).getD false = true
    · rw [spawnMonsterAux, if_pos hw] at h
      cases h
      have hb : 0 ≤ (sampleMonster rs i).1 ∧ (sampleMonster rs i).1 < (MAP_WIDTH : Int) ∧
          0 ≤ (sampleMonster rs i).2 ∧ (sampleMonster rs i).2 < (MAP_HEIGHT : Int) := by
        simp only [sampleMonster, MAP_WIDTH, MAP_HEIGHT]
        omega
      exact isValidMove_of_tile m _ _ hb.1 hb.2.1 hb.2.2.1 hb.2.2.2 hw
    · rw [spawnMonsterAux, if_neg hw] at h
      exact ih (i + 1) p h

/-- Every client message keeps all entities on walkable tiles. -/
theorem handle_preserves_walkable (st : GameState) (sid : Nat) (msg : ClientMsg) (env : Env)
    (hinv : entitiesOnWalkable st) :
    entitiesOnWalkable (handleClientMessage st sid msg env).1 := by
  obtain ⟨hP, hM⟩ := hinv
  rcases hp : findPlayer st.players sid with _ | p
  · simp only [handleClientMessage, hp]
    exact ⟨hP, hM⟩
  · cases msg with
    | move x y =>
      by_cases hv : isValidMove st.map x y = true
      · simp only [handleClientMessage, hp, hv, if_true]
        refine ⟨?_, hM⟩
        intro p2 hp2
        rcases mem_setPlayerPos p2 hp2 with ⟨hx, hy⟩ | h1
        · rw [hx, hy]; exact hv
        · exact hP p2 h1
      · simp only [handleClientMessage, hp]
        rw [if_neg hv]
        exact ⟨hP, hM⟩
    | fireball tx ty =>
      simp only [handleClientMessage, hp]
      exact ⟨hP, hM⟩
    | attack mid =>
      rcases hm : findMonster st.monsters mid with _ | mon
      · simp only [handleClientMessage, hp, hm]
        exact ⟨hP, hM⟩
      · by_cases hd : mon.health - (((env.meleeRoll % 5 : Nat) : Int) + 8) ≤ 0
        · simp only [handleClientMessage, hp, hm]
          rw [if_pos hd]
          refine ⟨hP, ?_⟩
          intro m3 hm3
          exact hM m3 (mem_removeMonster m3 hm3)
        · simp only [handleClientMessage, hp, hm]
          rw [if_neg hd]
          refine ⟨hP, ?_⟩
          intro m3 hm3
          rcases mem_setMonsterHealth hm m3 hm3 with h1 | h1
          · exact hM m3 h1
          · subst h1
            exact hM mon (findMonster_mem hm)
    | fireballHit mid =>
      rcases hm : findMonster st.monsters mid with _ | mon
      · simp only [handleClientMessage, hp, hm]
        exact ⟨hP, hM⟩
      · by_cases hd : mon.health - 15 ≤ 0
        · simp only [handleClientMessage, hp, hm]
          rw [if_pos hd]
          refine ⟨hP, ?_⟩
          intro m3 hm3
          exact hM m3 (mem_removeMonster m3 hm3)
        · simp only [handleClientMessage, hp, hm]
          rw [if_neg hd]
          refine ⟨hP, ?_⟩
          intro m3 hm3
          rcases mem_setMonsterHealth hm m3 hm3 with h1 | h1
          · exact hM m3 h1
          · subst h1
            exact hM mon (findMonster_mem hm)

/-- The AI tick keeps all entities on walkable tiles. -/
theorem tick_preserves_walkable (st : GameState) (mid : Nat) (ae : AiEnv)
    (hinv : entitiesOnWalkable st) : entitiesOnWalkable (monsterTickState st mid ae).1 := by
  obtain ⟨hP, hM⟩ := hinv
  rcases hm : findMonster st.monsters mid with _ | mon
  · simp only [monsterTickState, hm]
    exact ⟨hP, hM⟩
  · simp only [monsterTickState, hm]
    refine ⟨?_, ?_⟩
    · intro p2 hp2
      obtain ⟨p1, hp1, hx, hy⟩ := monsterTick_players_pos st.map st.players mon ae p2 hp2
      rw [hx, hy]
      exact hP p1 hp1
    · intro m3 hm3
      rcases mem_replaceMonster m3 hm3 with h1 | h1
      · exact hM m3 h1
      · subst h1
        rcases monsterTick_monster_pos st.map st.players mon ae with ⟨hx, hy⟩ | hval
        · rw [hx, hy]
          exact hM mon (findMonster_mem hm)
        · exact hval

/-- An empty state over the all-water map. -/
def c6State : GameState :=
  { players := [], monsters := [], fireballs := [], map := allWater, nextPlayerId := 1 }

/-- C6 counterexample: on a map whose spawn window has no walkable tile,
the connection handler places the new player on the non-walkable tile
(2,2) — the 100-attempt fallback of `findSpawnPosition` violates the
walkability invariant at player join. -/
theorem c6_counterexample :
    (handleConnection c6State rs0).state.players =
      [{ id := 1, x := 2, y := 2, health := 100, maxHealth := 100, name := "Player1" }] ∧
    isValidMove (handleConnection c6State rs0).state.map 2 2 = false := by
  decide

/-- C6 amended: every entity position is always in-bounds, and every
mutation site except the player spawn preserves walkability: client
messages and AI ticks keep all entities on walkable tiles and a monster
(re)spawn lands on a walkable tile, while the connecting player's
position is only guaranteed walkable when one of the 100 spawn samples
is walkable. -/
theorem c6_entity_positions (st : GameState) (rs : Nat → Nat × Nat) :
    ((handleConnection st rs).state.players =
       st.players ++ [{ id := st.nextPlayerId, x := (findSpawnPosition st.map rs).1,
                        y := (findSpawnPosition st.map rs).2, health := 100, maxHealth := 100,
                        name := "Player" ++ toString st.nextPlayerId }] ∧
     0 ≤ (findSpawnPosition st.map rs).1 ∧
     (findSpawnPosition st.map rs).1 < (MAP_WIDTH : Int) ∧
     0 ≤ (findSpawnPosition st.map rs).2 ∧
     (findSpawnPosition st.map rs).2 < (MAP_HEIGHT : Int)) ∧
    ((∃ j, j < 100 ∧ isValidMove st.map (sampleSpawn rs j).1 (sampleSpawn rs j).2 = true) →
      isValidMove st.map (findSpawnPosition st.map rs).1 (findSpawnPosition st.map rs).2
        = true) ∧
    (∀ sid msg env, entitiesOnWalkable st →
      entitiesOnWalkable (handleClientMessage st sid msg env).1) ∧
    (∀ mid ae, entitiesOnWalkable st → entitiesOnWalkable (monsterTickState st mid ae).1) ∧
    (∀ fuel newId now mon2, spawnMonster st.map rs fuel newId now = some mon2 →
      isValidMove st.map mon2.x mon2.y = true) := by
  refine ⟨⟨rfl, ?_⟩, ?_, ?_, ?_, ?_⟩
  · obtain ⟨j, _, _, hj⟩ := findSpawnAux_is_sample st.map rs 99 0
    have hj2 : findSpawnPosition st.map rs = sampleSpawn rs j := hj
    have hb := sampleSpawn_bounds rs j
    have hW : (MAP_WIDTH : Int) = 20 := rfl
    have hH : (MAP_HEIGHT : Int) = 15 := rfl
    rw [hj2]
    omega
  · rintro ⟨j, hj, hw⟩
    exact findSpawnAux_walkable st.map rs 99 0 ⟨j, by omega, by omega, hw⟩
  · exact fun sid msg env h => handle_preserves_walkable st sid msg env h
  · exact fun mid ae h => tick_preserves_walkable st mid ae h
  · intro fuel newId now mon2 h
    rcases hopt : spawnMonsterAux st.map rs 0 fuel with _ | pos
    · simp only [spawnMonster, hopt, Option.map_none'] at h
      exact Option.noConfusion h
    · simp only [spawnMonster, hopt, Option.map_some', Option.some.injEq] at h
      subst h
      exact spawnMonsterAux_walkable st.map rs fuel 0 pos hopt

/-- C6 witness: over the all-grass demo map the first spawn sample is
walkable, so the connecting player's tile is walkable. -/
theorem c6_entity_positions_witness :
    isValidMove demoState.map (findSpawnPosition demoState.map rs0).1
      (findSpawnPosition demoState.map rs0).2 = true :=
  (c6_entity_positions demoState rs0).2.1
    ⟨0, by norm_num, show isValidMove allGrass 2 2 = true from by decide⟩

/-! ## C7: player health under monster attacks -/

def c7Player : Player := { id := 1, x := 3, y := 3, health := 3, maxHealth := 100, name := "Player1" }

def c7Monster : Monster := { id := 9, x := 4, y := 3, health := 50, maxHealth := 50, lastMove := 0 }

def c7Ae : AiEnv := { now := 1000, attackRoll := true, dmgRoll := 0 }

/-- C7 counterexample: a monster attack on a player at 3 health stores
health -2 and broadcasts `playerDamaged` carrying -2 — the server never
clamps player health at 0 (part_004 line 375 subtracts directly). -/
theorem c7_counterexample :
    (monsterTick allGrass [c7Player] c7Monster c7Ae).1.map Player.health = [-2] ∧
    { msg := ServerMsg.playerDamaged 1 (-2) 5, exclude := (none : Option Nat) } ∈
      (monsterTick allGrass [c7Player] c7Monster c7Ae).2.2 := by
  decide

/-- C7 amended: when the AI tick's attack branch fires, the damage
(an integer in 5..10) is subtracted from the player's stored health with
no clamping, the `playerDamaged` broadcast carries exactly that stored
(possibly negative) value, and `playerDied` is broadcast iff the new
health is ≤ 0. -/
theorem c7_player_damage_no_clamp (mp : GameMap) (ps : List Player) (mon : Monster)
    (ae : AiEnv) (np : Player)
    (hg : ae.now - mon.lastMove > 500)
    (hn : nearestPlayer ps mon.x mon.y = some np)
    (hadj : sqDist np.x np.y mon.x mon.y ≤ 2)
    (hroll : ae.attackRoll = true) :
    (monsterTick mp ps mon ae).1 =
      setPlayerHealth ps np.id (np.health - (((ae.dmgRoll % 6 : Nat) : Int) + 5)) ∧
    { msg := ServerMsg.playerDamaged np.id
        (np.health - (((ae.dmgRoll % 6 : Nat) : Int) + 5)) (((ae.dmgRoll % 6 : Nat) : Int) + 5),
      exclude := (none : Option Nat) } ∈ (monsterTick mp ps mon ae).2.2 ∧
    ({ msg := ServerMsg.playerDied np.id, exclude := (none : Option Nat) } ∈
        (monsterTick mp ps mon ae).2.2 ↔
      np.health - (((ae.dmgRoll % 6 : Nat) : Int) + 5) ≤ 0) ∧
    5 ≤ ((ae.dmgRoll % 6 : Nat) : Int) + 5 ∧ ((ae.dmgRoll % 6 : Nat) : Int) + 5 ≤ 10 := by
  have h6 : ae.dmgRoll % 6 < 6 := Nat.mod_lt _ (by norm_num)
  have hb : (decide (sqDist np.x np.y mon.x mon.y ≤ 2) && ae.attackRoll) = true := by
    simp [hadj, hroll]
  refine ⟨?_, ?_, ?_, by omega, by omega⟩
  · by_cases hv : isValidMove mp (mon.x + (greedyDelta (np.x - mon.x) (np.y - mon.y)).1)
        (mon.y + (greedyDelta (np.x - mon.x) (np.y - mon.y)).2) = true <;>
      simp [monsterTick, hg, hn, hv, hb]
  · by_cases hv : isValidMove mp (mon.x + (greedyDelta (np.x - mon.x) (np.y - mon.y)).1)
        (mon.y + (greedyDelta (np.x - mon.x) (np.y - mon.y)).2) = true <;>
      by_cases hdeath : np.health - (((ae.dmgRoll % 6 : Nat) : Int) + 5) ≤ 0 <;>
      simp [monsterTick, hg, hn, hv, hb, hdeath]
  · by_cases hv : isValidMove mp (mon.x + (greedyDelta (np.x - mon.x) (np.y - mon.y)).1)
        (mon.y + (greedyDelta (np.x - mon.x) (np.y - mon.y)).2) = true <;>
      by_cases hdeath : np.health - (((ae.dmgRoll % 6 : Nat) : Int) + 5) ≤ 0 <;>
      simp [monsterTick, hg, hn, hv, hb, hdeath]

/-- C7 witness: the amended theorem applied at the counterexample
configuration yields the -2 health update. -/
theorem c7_player_damage_no_clamp_witness :
    (monsterTick allGrass [c7Player] c7Monster c7Ae).1 =
      setPlayerHealth [c7Player] c7Player.id
        (c7Player.health - (((c7Ae.dmgRoll % 6 : Nat) : Int) + 5)) :=
  (c7_player_damage_no_clamp allGrass [c7Player] c7Monster c7Ae c7Player (by decide)
    (by decide) (by decide) (by decide)).1

/-! ## C8: fireball records -/

def c8s1 : GameState := (handleClientMessage demoState 1 (.fireball 100 100) env0).1

/-- C8 counterexample: handling a `fireball` message appends a record to
the server-side `gameState.fireballs`, and the record is still there
after a later operation — the fireball IS persisted beyond the spawn
broadcast (part_004 line 224), it is merely never read again. -/
theorem c8_counterexample :
    c8s1.fireballs =
      [{ id := 0, playerId := 1, startX := 3, startY := 3, targetX := 100, targetY := 100,
         timestamp := 0 }] ∧
    (handleClientMessage c8s1 1 (.move 4 3) env0).1.fireballs = c8s1.fireballs := by
  decide

/-- C8 amended: `fireball` broadcasts the spawn to all clients including
the caster and appends one record to the server-side fireball list, where
it stays forever; no operation ever reads it — every handler's players,
monsters, effects and the AI tick are independent of the fireball list,
and no operation but `fireball` changes that list. -/
theorem c8_fireball_frame (st : GameState) (sid : Nat) (msg : ClientMsg) (env : Env)
    (fbs : List Fireball) (mid : Nat) (ae : AiEnv) (rs : Nat → Nat × Nat) :
    ((handleClientMessage { st with fireballs := fbs } sid msg env).1.players =
        (handleClientMessage st sid msg env).1.players ∧
     (handleClientMessage { st with fireballs := fbs } sid msg env).1.monsters =
        (handleClientMessage st sid msg env).1.monsters ∧
     (handleClientMessage { st with fireballs := fbs } sid msg env).1.map =
        (handleClientMessage st sid msg env).1.map ∧
     (handleClientMessage { st with fireballs := fbs } sid msg env).2 =
        (handleClientMessage st sid msg env).2) ∧
    (∀ p tx ty, findPlayer st.players sid = some p → msg = .fireball tx ty →
      (handleClientMessage st sid msg env).1.fireballs =
        st.fireballs ++ [{ id := env.freshId, playerId := sid, startX := p.x, startY := p.y,
                           targetX := tx, targetY := ty, timestamp := env.now }] ∧
      (handleClientMessage st sid msg env).2.broadcasts =
        [{ msg := .fireballCast ⟨env.freshId, sid, p.x, p.y, tx, ty, env.now⟩,
           exclude := none }]) ∧
    ((∀ tx ty, msg ≠ .fireball tx ty) →
      (handleClientMessage st sid msg env).1.fireballs = st.fireballs) ∧
    ((monsterTickState { st with fireballs := fbs } mid ae).1.players =
        (monsterTickState st mid ae).1.players ∧
     (monsterTickState { st with fireballs := fbs } mid ae).1.monsters =
        (monsterTickState st mid ae).1.monsters ∧
     (monsterTickState { st with fireballs := fbs } mid ae).2 =
        (monsterTickState st mid ae).2 ∧
     (monsterTickState st mid ae).1.fireballs = st.fireballs) ∧
    ((handleConnection st rs).state.fireballs = st.fireballs) := by
  refine ⟨?_, ?_, ?_, ?_, rfl⟩
  · rcases hp : findPlayer st.players sid with _ | p
    · simp [handleClientMessage, hp]
    · cases msg with
      | move x y =>
        by_cases hv : isValidMove st.map x y = true <;> simp [handleClientMessage, hp, hv]
      | fireball tx ty => simp [handleClientMessage, hp]
      | attack mid2 =>
        rcases hm : findMonster st.monsters mid2 with _ | mon
        · simp [handleClientMessage, hp, hm]
        · simp only [handleClientMessage, hp, hm]
          split <;> simp
      | fireballHit mid2 =>
        rcases hm : findMonster st.monsters mid2 with _ | mon
        · simp [handleClientMessage, hp, hm]
        · simp only [handleClientMessage, hp, hm]
          split <;> simp
  · rintro p tx ty hp rfl
    simp [handleClientMessage, hp]
  · intro hne
    rcases hp : findPlayer st.players sid with _ | p
    · simp [handleClientMessage, hp]
    · cases msg with
      | move x y =>
        by_cases hv : isValidMove st.map x y = true <;> simp [handleClientMessage, hp, hv]
      | fireball tx ty => exact absurd rfl (hne tx ty)
      | attack mid2 =>
        rcases hm : findMonster st.monsters mid2 with _ | mon
        · simp [handleClientMessage, hp, hm]
        · simp only [handleClientMessage, hp, hm]
          split <;> simp
      | fireballHit mid2 =>
        rcases hm : findMonster st.monsters mid2 with _ | mon
        · simp [handleClientMessage, hp, hm]
        · simp only [handleClientMessage, hp, hm]
          split <;> simp
  · rcases hm : findMonster st.monsters mid with _ | mon
    · simp [monsterTickState, hm]
    · simp [monsterTickState, hm]

/-- C8 witness: the append characterisation at a concrete fireball cast. -/
theorem c8_fireball_frame_witness :
    (handleClientMessage demoState 1 (.fireball 100 100) env0).1.fireballs =
      demoState.fireballs ++
        [{ id := env0.freshId, playerId := 1, startX := demoPlayer.x, startY := demoPlayer.y,
           targetX := 100, targetY := 100, timestamp := env0.now }] :=
  ((c8_fireball_frame demoState 1 (.fireball 100 100) env0 [] 0 c7Ae rs0).2.1 demoPlayer
    100 100 (by decide) rfl).1

end Tibia
